import Mathlib

/-!
Shallow embedding of `swole.py` (the SWOLE CODE micro-workout CLI) and
verification of its specification claims.

Conventions used throughout:
* JSON documents are modelled by the inductive type `JValue`; JSON objects
  (Python dicts) are association lists `List (String × JValue)` with
  first-match lookup (`List.lookup`), which coincides with Python dict
  semantics because Python dicts have unique keys.
* The filesystem is modelled explicitly: a stored document is an
  `Option` value (`none` = file absent), and functions that read/write
  files take the stored document as an argument and return the new one.
* Python's arbitrary-precision `int` is modelled by `Int`; ISO timestamps
  used only for elapsed-seconds comparisons are modelled by an `Int`
  number of seconds.
* Python string operations (`str.strip`, `str.lower`, `str.split`,
  `int(...)`) are modelled by explicit character-list functions,
  restricted to ASCII (every string any claim exercises is ASCII).
-/

/-- JSON values, as produced by Python's `json` module. Numbers are
integers here; of the float literals Python's lenient-by-default
`json.loads` accepts, only `NaN` (`float('nan')`) is modelled, as the
one whose behaviour differs observably from every other value: `nan ==
nan` is false. Finite floats and `Infinity` compare equal to themselves
like any other value, so no claim can tell them apart from the
constructors below. -/
inductive JValue : Type where
  | null : JValue
  | bool : Bool → JValue
  | num : Int → JValue
  | str : String → JValue
  | nan : JValue
  | arr : List JValue → JValue
  | obj : List (String × JValue) → JValue

/-- A JSON object / Python dict: an association list with unique keys
(first-match lookup). -/
abbrev JObj := List (String × JValue)

mutual

/-- Structural Boolean equality of JSON values, modelling Python `==` on
values coming from `json.loads`. `NaN` compares false even to itself
(IEEE-754 semantics of `float('nan') == float('nan')` in Python). -/
def jbeq : JValue → JValue → Bool
  | JValue.null, JValue.null => true
  | JValue.bool x, JValue.bool y => x == y
  | JValue.num x, JValue.num y => x == y
  | JValue.str x, JValue.str y => x == y
  | JValue.nan, JValue.nan => false
  | JValue.arr xs, JValue.arr ys => jbeqList xs ys
  | JValue.obj xs, JValue.obj ys => jbeqFields xs ys
  | _, _ => false
termination_by structural a => a

/-- Elementwise equality of JSON arrays. -/
def jbeqList : List JValue → List JValue → Bool
  | [], [] => true
  | x :: xs, y :: ys => jbeq x y && jbeqList xs ys
  | _, _ => false
termination_by structural a => a

/-- Fieldwise equality of JSON objects. -/
def jbeqFields : List (String × JValue) → List (String × JValue) → Bool
  | [], [] => true
  | (k, x) :: xs, (k2, y) :: ys => (k == k2 && jbeq x y) && jbeqFields xs ys
  | _, _ => false
termination_by structural a => a

end

/-- Python `d[k] = v` on a dict: replace the value at an existing key in
place, otherwise append the new key at the end. -/
def assocSet (l : JObj) (k : String) (v : JValue) : JObj :=
  if (l.lookup k).isSome then
    l.map (fun p => if p.1 = k then (p.1, v) else p)
  else
    l ++ [(k, v)]

/-- Python `base.update(saved)` on dicts (as in `load_config`): keys of
`base` keep their position, taking `saved`'s value when `saved` also has
the key, and keys only in `saved` are appended. -/
def dictUpdate (base saved : JObj) : JObj :=
  base.map (fun p =>
    match saved.lookup p.1 with
    | some v => (p.1, v)
    | none => p) ++
  saved.filter (fun q => (base.lookup q.1).isNone)

/-- Look a dotted path up in a JSON object (used to state claims about
nested keys such as `quiet_hours.start`). -/
def getPath (l : JObj) : List String → Option JValue
  | [] => some (JValue.obj l)
  | [k] => l.lookup k
  | k :: ks =>
    match l.lookup k with
    | some (JValue.obj sub) => getPath sub ks
    | _ => none

/-- `DEFAULT_CONFIG` from `swole.py`. -/
def DEFAULT_CONFIG : JObj :=
  [("enabled", JValue.bool true),
   ("cooldown_minutes", JValue.num 30),
   ("theme", JValue.str "fire"),
   ("categories", JValue.obj
     [("legs", JValue.bool true), ("upper", JValue.bool true),
      ("cardio", JValue.bool true), ("core", JValue.bool true),
      ("mobility", JValue.bool true), ("full", JValue.bool true)]),
   ("intensity_preference", JValue.str "mixed"),
   ("equipment", JValue.arr [JValue.str "none"]),
   ("weekly_pattern", JValue.str "freestyle"),
   ("custom_exercises", JValue.arr []),
   ("custom_routines", JValue.arr []),
   ("quiet_hours", JValue.obj
     [("enabled", JValue.bool false), ("start", JValue.str "22:00"),
      ("end", JValue.str "08:00")])]

/-- `load_config`: if the config file exists, return
`DEFAULT_CONFIG.copy()` updated with the saved document (a shallow,
top-level `dict.update`); otherwise a copy of the defaults.
`stored` is the config file's contents (`none` = file absent). -/
def load_config (stored : Option JObj) : JObj :=
  match stored with
  | some saved => dictUpdate DEFAULT_CONFIG saved
  | none => DEFAULT_CONFIG

/-- `save_config`: writes the document verbatim (`json.dump`), so the
stored file afterwards is exactly the given object. -/
def save_config (config : JObj) : Option JObj :=
  some config

-- --- Day state (`load_day_state`, `save_day_state`, `reset_day_if_needed`) ---

/-- The `morning` sub-document of the day state. -/
structure MorningState where
  status : String
  completed_at : Option String
  routine_used : Option String
  deriving DecidableEq

/-- The `workout_queue` sub-document of the day state. -/
structure WorkoutQueueState where
  queued : Bool
  routine_id : Option String
  routine_name : Option String
  duration_minutes : Option Int
  trigger : Option String
  trigger_description : Option String
  queued_at : Option String
  triggered_at : Option String
  deriving DecidableEq

/-- The day-state document (`day.json`). -/
structure DayState where
  date : Option String
  morning : MorningState
  workout_queue : WorkoutQueueState
  deep_work_start : Option String
  deriving DecidableEq

/-- `DEFAULT_DAY_STATE` from `swole.py` (its `date` is `None`). -/
def DEFAULT_DAY_STATE : DayState :=
  { date := none,
    morning := { status := "pending", completed_at := none, routine_used := none },
    workout_queue :=
      { queued := false, routine_id := none, routine_name := none,
        duration_minutes := none, trigger := none, trigger_description := none,
        queued_at := none, triggered_at := none },
    deep_work_start := none }

/-- `save_day_state`: writes the state verbatim; returns the file
contents afterwards. -/
def save_day_state (state : DayState) : Option DayState :=
  some state

/-- `reset_day_if_needed`: builds a brand-new default state for `today`
(the stale state argument is ignored entirely), saves it, and returns it.
Result: (returned state, day file afterwards). -/
def reset_day_if_needed (_state : DayState) (today : String) :
    DayState × Option DayState :=
  let new_state : DayState :=
    { date := some today,
      morning := { status := "pending", completed_at := none, routine_used := none },
      workout_queue :=
        { queued := false, routine_id := none, routine_name := none,
          duration_minutes := none, trigger := none, trigger_description := none,
          queued_at := none, triggered_at := none },
      deep_work_start := none }
  (new_state, save_day_state new_state)

/-- `load_day_state`: load the day file (`stored`), resetting when the
stored date differs from `today` (`datetime.date.today().isoformat()`);
when the file is absent, default the state to today and save it.
Result: (returned state, day file afterwards). -/
def load_day_state (stored : Option DayState) (today : String) :
    DayState × Option DayState :=
  match stored with
  | some state =>
    if state.date ≠ some today then reset_day_if_needed state today
    else (state, stored)
  | none =>
    let state : DayState := { DEFAULT_DAY_STATE with date := some today }
    (state, save_day_state state)

-- --- Python string primitives used by the menus and commands ---

/-- ASCII whitespace recognised by Python's `str.strip()`. -/
def isPySpace (c : Char) : Bool :=
  c == ' ' || c == '\t' || c == '\n' || c == '\r' || c == '\x0b' || c == '\x0c'

/-- Python `s.strip()` (ASCII whitespace). -/
def pyStrip (s : String) : String :=
  String.mk (((s.toList.dropWhile isPySpace).reverse.dropWhile isPySpace).reverse)

/-- Python `s.lower()` (ASCII). -/
def pyLower (s : String) : String :=
  String.mk (s.toList.map (fun c =>
    if 'A' ≤ c ∧ c ≤ 'Z' then Char.ofNat (c.toNat + 32) else c))

/-- Helper for Python `s.split('.')`: accumulates the current piece in
reverse. -/
def splitDotsAux : List Char → List Char → List String
  | [], acc => [String.mk acc.reverse]
  | '.' :: rest, acc => String.mk acc.reverse :: splitDotsAux rest []
  | c :: rest, acc => splitDotsAux rest (c :: acc)

/-- Python `key.split('.')` (always returns at least one piece; empty
pieces are preserved). -/
def splitDots (s : String) : List String :=
  splitDotsAux s.toList []

/-- Value of a digit run, most significant first (`int` semantics). -/
def digitsToNat (l : List Char) : Nat :=
  l.foldl (fun acc c => acc * 10 + (c.toNat - 48)) 0

/-- Digit tail scanner for Python `int()`: after a first digit, accepts
digits with single underscores allowed only between digits, accumulating
the value. -/
def pyDigitsCore (acc : Nat) : List Char → Option Nat
  | [] => some acc
  | c :: cs =>
    if c.isDigit then pyDigitsCore (acc * 10 + (c.toNat - 48)) cs
    else if c = '_' then
      match cs with
      | d :: rest =>
        if d.isDigit then pyDigitsCore (acc * 10 + (d.toNat - 48)) rest else none
      | [] => none
    else none

/-- After an optional sign, Python `int()` requires a leading digit. -/
def pyIntFromDigits (sign : Int) : List Char → Option Int
  | d :: ds =>
    if d.isDigit then (pyDigitsCore (d.toNat - 48) ds).map (fun m => sign * (m : Int))
    else none
  | [] => none

/-- Python `int(s)` on an ASCII string: optional surrounding whitespace,
optional sign, then digits with optional single underscores between
digits; anything else raises `ValueError` (`none` here). -/
def pyInt? (s : String) : Option Int :=
  match (pyStrip s).toList with
  | '+' :: rest => pyIntFromDigits 1 rest
  | '-' :: rest => pyIntFromDigits (-1) rest
  | l => pyIntFromDigits 1 l

-- --- Interactive menu engine ---

/-- The key events `InteractiveMenu.run` binds: `up`/`k`, `down`/`j`,
`enter`, `space`, `escape`, and `q` (`qkey`). -/
inductive MenuKey : Type where
  | up : MenuKey
  | down : MenuKey
  | enter : MenuKey
  | space : MenuKey
  | escape : MenuKey
  | qkey : MenuKey
  deriving DecidableEq

/-- `move_up` handler: `self.cursor = max(0, self.cursor - 1)`. -/
def move_up (cursor : Int) : Int :=
  max 0 (cursor - 1)

/-- `move_down` handler:
`self.cursor = min(len(self.items) - 1, self.cursor + 1)`;
`n` is `len(self.items)`. -/
def move_down (n cursor : Int) : Int :=
  min (n - 1) (cursor + 1)

/-- Cursor position after a sequence of key events, starting from the
initial cursor 0; keys other than up/down leave the cursor where it is. -/
def runCursor (n : Int) (evs : List MenuKey) : Int :=
  evs.foldl (fun c e =>
    match e with
    | MenuKey.up => move_up c
    | MenuKey.down => move_down n c
    | _ => c) 0

/-- `toggle` (Space) handler in multi-select mode: flip membership of the
value under the cursor in the selection set (Python `set.discard`/`add`;
the set is modelled as a list and membership by the item type's `==`). -/
def toggleSelected {α : Type} [BEq α] (selected : List α) (val : α) : List α :=
  if selected.any (fun x => x == val) then selected.filter (fun x => !(x == val))
  else selected ++ [val]

/-- `InteractiveMenu.run` with `multi_select=True`, driven by a list of
key events (`items` is the list of the items' opaque values). The loop
state is (cursor, selection set). Outer `none` = the event list ran out
with the menu still active (the real application would keep blocking);
`some r` = the menu exited returning the Python value `r`, where
`r = none` is the cancellation sentinel `None` (Escape or `q` sets
`self.cancelled`) and `r = some sel` is the confirmed selection set
(Enter stores `self.selected` into `self.result`). The Space handler
reads `self.items[self.cursor][2]`; the claims only concern menus with at
least one item, for which the cursor invariant keeps that index in
bounds, so the out-of-bounds case (a Python `IndexError`) is a no-op
here. -/
def multiRun {α : Type} [BEq α] (items : List α) :
    Int → List α → List MenuKey → Option (Option (List α))
  | _, _, [] => none
  | cursor, selected, e :: evs =>
    match e with
    | MenuKey.up => multiRun items (move_up cursor) selected evs
    | MenuKey.down => multiRun items (move_down items.length cursor) selected evs
    | MenuKey.enter => some (some selected)
    | MenuKey.space =>
      multiRun items cursor
        (match items.get? cursor.toNat with
         | some val => toggleSelected selected val
         | none => selected) evs
    | MenuKey.escape => some none
    | MenuKey.qkey => some none

/-- The (cursor, selection) state reached after a sequence of
non-finalizing key events (used to state what Enter returns). -/
def multiStateAfter {α : Type} [BEq α] (items : List α) :
    Int × List α → List MenuKey → Int × List α
  | st, [] => st
  | (cursor, selected), e :: evs =>
    multiStateAfter items
      (match e with
       | MenuKey.up => (move_up cursor, selected)
       | MenuKey.down => (move_down items.length cursor, selected)
       | MenuKey.space =>
         (cursor,
          match items.get? cursor.toNat with
          | some val => toggleSelected selected val
          | none => selected)
       | _ => (cursor, selected)) evs

/-- Keys that neither confirm nor cancel a menu. -/
def isNav (e : MenuKey) : Bool :=
  match e with
  | MenuKey.up => true
  | MenuKey.down => true
  | MenuKey.space => true
  | _ => false

/-- `InteractiveMenu._fallback_menu` for a single-select menu (values
`items`): reads one line (`none` = `EOFError`/`KeyboardInterrupt`),
strips it; an empty line returns item 0 (`self.items[0][2]` — an
`IndexError` on an empty menu, which the claims exclude), an integer
`i` with `0 <= i-1 < len(items)` returns item `i-1`, anything else
returns the cancellation sentinel `None`. -/
def fallback_menu {α : Type} (items : List α) (inp : Option String) : Option α :=
  match inp with
  | none => none
  | some line =>
    let s := pyStrip line
    if s = "" then items.get? 0
    else
      match pyInt? s with
      | some i =>
        if 0 ≤ i - 1 ∧ i - 1 < (items.length : Int) then items.get? (i - 1).toNat
        else none
      | none => none

-- --- Free-text prompt (`InputPrompt`) ---

/-- How a keyboard-mode prompt session ends: the user accepts with final
edit-buffer contents `t` (`prompt_toolkit` pre-fills the buffer with the
default, so accepting without editing gives `accepted default`), presses
Esc (the binding runs `event.app.exit(result=None)` after setting
`self.cancelled`), or the input stream ends / is interrupted
(`EOFError` / `KeyboardInterrupt`). -/
inductive PromptOutcome : Type where
  | accepted : String → PromptOutcome
  | escaped : PromptOutcome
  | interrupted : PromptOutcome

/-- `InputPrompt.run` (keyboard mode): returns the accepted buffer, and
the cancellation sentinel `None` for Esc (`self.cancelled` is checked
after `prompt` returns) and for an interrupted/closed input stream
(the `except (EOFError, KeyboardInterrupt)` handler). -/
def InputPrompt.run (_default : String) : PromptOutcome → Option String
  | PromptOutcome.accepted t => some t
  | PromptOutcome.escaped => none
  | PromptOutcome.interrupted => none

/-- `InputPrompt._fallback` (line mode): reads a line (`none` =
`EOFError`/`KeyboardInterrupt`, returning the sentinel), strips it, and
returns it, or the default when it is empty
(`result if result else self.default`). -/
def InputPrompt.fallback (dflt : String) (inp : Option String) : Option String :=
  match inp with
  | none => none
  | some line =>
    let result := pyStrip line
    if result = "" then some dflt else some result

-- --- Tabbed view (`TabbedView`) ---

/-- `prev_tab` handler: `self.current_tab = (self.current_tab - 1) % len(self.tabs)`
(Python `%` with positive modulus agrees with `Int.emod`). -/
def prev_tab (n tab : Int) : Int :=
  (tab - 1) % n

/-- `next_tab` handler: `self.current_tab = (self.current_tab + 1) % len(self.tabs)`. -/
def next_tab (n tab : Int) : Int :=
  (tab + 1) % n

/-- One round of `TabbedView._fallback`'s dispatch on
`input().strip().lower()`: `none` input models `EOFError` /
`KeyboardInterrupt` (break); quit words and the empty line break; `n`,
`right`, `l` go to the next tab, `p`, `left`, `h` to the previous one;
anything else redraws the same tab. Returns the new active tab, or
`none` when the loop exits. -/
def fallbackTabStep (n tab : Int) (inp : Option String) : Option Int :=
  match inp with
  | none => none
  | some line =>
    let key := pyLower (pyStrip line)
    if key = "q" ∨ key = "quit" ∨ key = "exit" ∨ key = "" then none
    else if key = "n" ∨ key = "right" ∨ key = "l" then some (next_tab n tab)
    else if key = "p" ∨ key = "left" ∨ key = "h" then some (prev_tab n tab)
    else some tab

-- --- `cmd_hook_suggest` ---

/-- An exercise definition as used by `cmd_hook_suggest` (`equipment = []`
models a missing, `None`, or empty `equipment` entry, all falsy). -/
structure Exercise where
  name : String
  count : Int
  unit : String
  category : String
  intensity : String
  equipment : List String
  deriving DecidableEq

/-- The pending-suggestion document (`pending.json`) written by
`cmd_hook_suggest`. -/
structure Pending where
  ptype : String
  exercise : String
  data : Exercise
  task_description : String
  suggested_at : Int
  deriving DecidableEq

/-- The two files `cmd_hook_suggest` touches: `pending.json` and
`last_suggested`. -/
structure SuggestFiles where
  pending : Option Pending
  last_suggested : Option Int
  deriving DecidableEq

/-- Unreachable default for `List.getD` on a list known to be nonempty. -/
def dummyExercise : Exercise :=
  { name := "", count := 0, unit := "reps", category := "", intensity := "",
    equipment := [] }

/-- The equipment filter of `cmd_hook_suggest`: keep exercises with no
equipment requirement, or requiring at least one piece among the user's
equipment (to which `"none"` is always added). -/
def suggestFilter (exercises : List Exercise) (equipment : List String) :
    List Exercise :=
  let user_equipment := equipment ++ ["none"]
  exercises.filter (fun e =>
    e.equipment.isEmpty || e.equipment.any (fun q => user_equipment.contains q))

/-- The suggestion line: `f"{count} {unit} {name}"`, with the unit left
out when it is `"reps"`. -/
def suggestText (e : Exercise) : String :=
  if e.unit ≠ "reps" then toString e.count ++ " " ++ e.unit ++ " " ++ e.name
  else toString e.count ++ " " ++ e.name

/-- `cmd_hook_suggest`: no-ops when disabled, or within the cooldown
window of the recorded `last_suggested` timestamp, or when no exercise
passes the equipment filter; otherwise picks an exercise (`random.choice`
is modelled by the index `pick`, taken modulo the filtered length),
writes the pending document and the `last_suggested` timestamp, and
prints the suggestion line. The parameters `enabled`, `cooldown_minutes`
and `equipment` are the corresponding `config.get(...)` reads, and
`exercises` is `load_exercises() + config.get("custom_exercises", [])`.
`task` is `args.task` (`none` = flag absent; Python also replaces an
empty string by `"task"` because `args.task` is falsy then).
Result: (files afterwards, printed line or `none` for no output). -/
def cmd_hook_suggest (enabled : Bool) (cooldown_minutes : Int)
    (exercises : List Exercise) (equipment : List String)
    (task : Option String) (now : Int) (pick : Nat)
    (files : SuggestFiles) : SuggestFiles × Option String :=
  if !enabled then (files, none)
  else
    let withinCooldown :=
      match files.last_suggested with
      | some t => decide (now - t < cooldown_minutes * 60)
      | none => false
    if withinCooldown then (files, none)
    else
      let filtered := suggestFilter exercises equipment
      if filtered.isEmpty then (files, none)
      else
        let exercise := filtered.getD (pick % filtered.length) dummyExercise
        let text := suggestText exercise
        let task_description :=
          match task with
          | some t => if t = "" then "task" else t
          | none => "task"
        ({ pending := some
             { ptype := "exercise", exercise := text, data := exercise,
               task_description := task_description, suggested_at := now },
           last_suggested := some now },
         some text)

-- --- `cmd_config_set` / `cmd_config_add` ---

/-- JSON integer literal: optional minus, digits, no leading zeros. -/
def jsonDigits? : List Char → Option Nat
  | [] => none
  | ['0'] => some 0
  | d :: ds =>
    if d.isDigit && d != '0' && ds.all Char.isDigit then some (digitsToNat (d :: ds))
    else none

/-- JSON integer parse. -/
def jsonInt? (s : String) : Option Int :=
  match s.toList with
  | '-' :: rest => (jsonDigits? rest).map (fun m => -(m : Int))
  | l => (jsonDigits? l).map (fun m => (m : Int))

/-- Partial model of `json.loads` restricted to the scalar literals whose
behaviour the claims can depend on: `true`, `false`, `null`, decimal
integers, and `NaN` — Python's default-lenient `json.loads` accepts
`NaN` as `float('nan')`, whose `==` is not reflexive, which the
`config-add` membership test observes. The remaining float literals
(`1.5`, `1e3`, `Infinity`, `-Infinity`) compare equal to themselves
under Python `==` just like the raw-string fallback they take here, so
the commands' membership/idempotence verdicts agree; quoted strings,
arrays and objects are likewise treated as unparseable. -/
def jsonScalar? (s : String) : Option JValue :=
  if s = "true" then some (JValue.bool true)
  else if s = "false" then some (JValue.bool false)
  else if s = "null" then some JValue.null
  else if s = "NaN" then some JValue.nan
  else
    match jsonInt? s with
    | some n => some (JValue.num n)
    | none => none

/-- The value-parsing chain of `cmd_config_set`: `json.loads` first, then
the lowercase boolean keywords, then the raw string. -/
def parse_set_value (value : String) : JValue :=
  match jsonScalar? value with
  | some v => v
  | none =>
    if pyLower value = "true" then JValue.bool true
    else if pyLower value = "false" then JValue.bool false
    else JValue.str value

/-- Dot-notation navigation and assignment in `cmd_config_set`
(`for k in keys[:-1]: ...; target[keys[-1]] = parsed_value`): missing
intermediate keys are created as empty dicts; an intermediate value that
is not a dict makes Python raise `TypeError` (`none` here). -/
def setPath (l : JObj) : List String → JValue → Option JObj
  | [], _ => some l
  | [k], v => some (assocSet l k v)
  | k :: ks, v =>
    match l.lookup k with
    | some (JValue.obj sub) =>
      (setPath sub ks v).map (fun sub2 => assocSet l k (JValue.obj sub2))
    | none =>
      (setPath [] ks v).map (fun sub2 => assocSet l k (JValue.obj sub2))
    | some _ => none

/-- `cmd_config_set KEY VALUE`: load the config, parse the value,
assign along the dotted key, save. On a `TypeError` (dotted path through
a non-object) the process dies before saving, leaving the stored file
unchanged. Returns the config file afterwards. -/
def cmd_config_set (stored : Option JObj) (key value : String) : Option JObj :=
  let config := load_config stored
  match setPath config (splitDots key) (parse_set_value value) with
  | some config2 => save_config config2
  | none => stored

/-- A saved configuration whose `quiet_hours` sub-document is present but
misses its `start` and `end` keys. -/
def c2Saved : JObj :=
  [("quiet_hours", JValue.obj [("enabled", JValue.bool true)])]

/-- A stale day-state document, fully populated with day-D data. -/
def staleDayState : DayState :=
  { date := some "2026-10-11",
    morning := { status := "completed",
                 completed_at := some "2026-10-11T09:00:00",
                 routine_used := some "sun salutation" },
    workout_queue :=
      { queued := true, routine_id := some "r1",
        routine_name := some "Quick Stretch", duration_minutes := some 5,
        trigger := some "big_task", trigger_description := some "shipped",
        queued_at := some "2026-10-11T10:00:00", triggered_at := none },
    deep_work_start := some "2026-10-11T08:00:00" }

/-- A bodyweight exercise that passes every equipment filter. -/
def pushups : Exercise :=
  { name := "pushups", count := 10, unit := "reps", category := "upper",
    intensity := "moderate", equipment := [] }

/-- A pending-suggestion document written at time 1000. -/
def pendingFixture : Pending :=
  { ptype := "exercise", exercise := "10 pushups", data := pushups,
    task_description := "writing tests", suggested_at := 1000 }

-- ===================================================================
-- Lemmas
-- ===================================================================

theorem lookup_append (l1 l2 : JObj) (k : String) :
    (l1 ++ l2).lookup k = ((l1.lookup k).orElse fun _ => l2.lookup k) := by
  induction l1 with
  | nil => simp [Option.orElse]
  | cons p l1 ih =>
    obtain ⟨a, v⟩ := p
    by_cases h : k = a
    · subst h
      simp [List.lookup_cons, Option.orElse]
    · simp [List.lookup_cons, beq_false_of_ne h, ih]

theorem lookup_map_override (b s : JObj) (k : String)
    (hk : (b.lookup k).isSome = true) :
    (b.map (fun p =>
      match s.lookup p.1 with
      | some v => (p.1, v)
      | none => p)).lookup k =
      ((s.lookup k).orElse fun _ => b.lookup k) := by
  induction b with
  | nil => simp at hk
  | cons p b ih =>
    obtain ⟨a, w⟩ := p
    by_cases h : k = a
    · subst h
      cases hs : s.lookup k with
      | some u => simp [List.lookup_cons, hs, Option.orElse]
      | none => simp [List.lookup_cons, hs, Option.orElse]
    · have hk' : (b.lookup k).isSome = true := by
        simpa [List.lookup_cons, beq_false_of_ne h] using hk
      cases hs : s.lookup a with
      | some u => simp [List.lookup_cons, hs, beq_false_of_ne h, ih hk']
      | none => simp [List.lookup_cons, hs, beq_false_of_ne h, ih hk']

theorem lookup_map_override_none (b s : JObj) (k : String)
    (hk : b.lookup k = none) :
    (b.map (fun p =>
      match s.lookup p.1 with
      | some v => (p.1, v)
      | none => p)).lookup k = none := by
  induction b with
  | nil => simp
  | cons p b ih =>
    obtain ⟨a, w⟩ := p
    by_cases h : k = a
    · subst h
      simp [List.lookup_cons] at hk
    · have hk' : b.lookup k = none := by
        simpa [List.lookup_cons, beq_false_of_ne h] using hk
      cases hs : s.lookup a with
      | some u => simp [List.lookup_cons, hs, beq_false_of_ne h, ih hk']
      | none => simp [List.lookup_cons, hs, beq_false_of_ne h, ih hk']

theorem lookup_filter_of_pass (s : JObj) (g : String × JValue → Bool) (k : String)
    (h : ∀ q ∈ s, q.1 = k → g q = true) :
    (s.filter g).lookup k = s.lookup k := by
  induction s with
  | nil => simp
  | cons q s ih =>
    obtain ⟨a, v⟩ := q
    have ih' := ih (fun p hp hpk => h p (by simp [hp]) hpk)
    by_cases hq : a = k
    · have hg : g (a, v) = true := h (a, v) (by simp) hq
      subst hq
      simp [List.filter_cons, hg, List.lookup_cons, ih']
    · cases hg : g (a, v) with
      | false =>
        simp [List.filter_cons, hg, List.lookup_cons,
          beq_false_of_ne (fun hh => hq hh.symm), ih']
      | true =>
        simp [List.filter_cons, hg, List.lookup_cons,
          beq_false_of_ne (fun hh => hq hh.symm), ih']

/-- The fundamental shape of `load_config`'s merge: a top-level key takes
the saved document's value when present, otherwise the default. -/
theorem lookup_dictUpdate (b s : JObj) (k : String) :
    (dictUpdate b s).lookup k = ((s.lookup k).orElse fun _ => b.lookup k) := by
  unfold dictUpdate
  rw [lookup_append]
  cases hb : b.lookup k with
  | some v =>
    rw [lookup_map_override b s k (by simp [hb])]
    cases hs : s.lookup k <;> simp [hb, hs, Option.orElse]
  | none =>
    rw [lookup_map_override_none b s k hb]
    rw [lookup_filter_of_pass s _ k (fun q _ hq => by simp [hq, hb])]
    cases hs : s.lookup k <;> simp [hb, hs, Option.orElse]

/-- `d[k] = v` makes `k` map to `v`. -/
theorem lookup_assocSet_self (l : JObj) (k : String) (v : JValue) :
    (assocSet l k v).lookup k = some v := by
  unfold assocSet
  by_cases hl : (l.lookup k).isSome = true
  · rw [if_pos hl]
    induction l with
    | nil => simp at hl
    | cons p l ih =>
      obtain ⟨a, w⟩ := p
      by_cases h : k = a
      · subst h
        simp [List.lookup_cons]
      · have hl' : (l.lookup k).isSome = true := by
          simpa [List.lookup_cons, beq_false_of_ne h] using hl
        simp [List.lookup_cons, beq_false_of_ne h, if_neg (Ne.symm h), ih hl']
  · rw [if_neg hl]
    have hl2 : l.lookup k = none := by
      cases h2 : l.lookup k with
      | some u => exact absurd (by simp [h2]) hl
      | none => rfl
    rw [lookup_append, hl2]
    simp [List.lookup_cons, Option.orElse]

/-- `d[k] = v` leaves every other key unchanged. -/
theorem lookup_assocSet_ne (l : JObj) (k : String) (v : JValue) (k2 : String)
    (h : k2 ≠ k) :
    (assocSet l k v).lookup k2 = l.lookup k2 := by
  unfold assocSet
  by_cases hl : (l.lookup k).isSome = true
  · rw [if_pos hl]
    clear hl
    induction l with
    | nil => simp
    | cons p l ih =>
      obtain ⟨a, w⟩ := p
      by_cases ha : a = k
      · subst ha
        simp [List.lookup_cons, beq_false_of_ne h, ih]
      · by_cases hk2 : k2 = a
        · simp [List.lookup_cons, if_neg ha, hk2]
        · simp [List.lookup_cons, if_neg ha, beq_false_of_ne hk2, ih]
  · rw [if_neg hl]
    rw [lookup_append]
    cases h2 : l.lookup k2 with
    | some u => simp [h2, Option.orElse]
    | none => simp [h2, Option.orElse, List.lookup_cons, beq_false_of_ne h]

/-- Re-merging a loaded config with the defaults changes nothing
(key-wise): every default key is already present after one load. -/
theorem load_config_lookup_orElse (stored : Option JObj) (k : String) :
    (((load_config stored).lookup k).orElse fun _ => DEFAULT_CONFIG.lookup k) =
      (load_config stored).lookup k := by
  cases stored with
  | none =>
    cases hd : DEFAULT_CONFIG.lookup k <;> simp [load_config, hd, Option.orElse]
  | some s =>
    rw [show load_config (some s) = dictUpdate DEFAULT_CONFIG s from rfl,
      lookup_dictUpdate]
    cases hs : s.lookup k <;> cases hd : DEFAULT_CONFIG.lookup k <;>
      simp [Option.orElse]

/-- Invariant step lemma for the menu cursor: folding key events keeps
the cursor inside `[0, n-1]`. -/
theorem cursor_fold_bounds (n : Int) (hN : 1 ≤ n) (evs : List MenuKey) :
    ∀ c : Int, 0 ≤ c → c ≤ n - 1 →
      0 ≤ evs.foldl (fun c e =>
        match e with
        | MenuKey.up => move_up c
        | MenuKey.down => move_down n c
        | _ => c) c ∧
      evs.foldl (fun c e =>
        match e with
        | MenuKey.up => move_up c
        | MenuKey.down => move_down n c
        | _ => c) c ≤ n - 1 := by
  induction evs with
  | nil =>
    intro c h0 h1
    exact ⟨h0, h1⟩
  | cons e evs ih =>
    intro c h0 h1
    cases e with
    | up =>
      rw [List.foldl_cons]
      exact ih (move_up c) (le_max_left 0 (c - 1))
        (max_le (by omega) (by omega))
    | down =>
      rw [List.foldl_cons]
      exact ih (move_down n c) (le_min (by omega) (by omega))
        (min_le_left (n - 1) (c + 1))
    | enter => exact ih c h0 h1
    | space => exact ih c h0 h1
    | escape => exact ih c h0 h1
    | qkey => exact ih c h0 h1

-- ===================================================================
-- Claims
-- ===================================================================

/-- **C1.** For every stored day-state document whose `date` field
differs from the current date, `load_day_state` returns the freshly
defaulted state for the current date — `date = today`, `morning.status =
"pending"` with `completed_at` and `routine_used` null, the workout
queue not queued with all its fields null, `deep_work_start` null — the
document written back to disk equals that defaulted state, and nothing
from the stale document is preserved (the result is a function of
`today` alone). -/
theorem c1_stale_day_state_resets (state : DayState) (today : String)
    (h : state.date ≠ some today) :
    load_day_state (some state) today =
      ({ DEFAULT_DAY_STATE with date := some today },
       some { DEFAULT_DAY_STATE with date := some today }) ∧
    (load_day_state (some state) today).1.date = some today ∧
    (load_day_state (some state) today).1.morning.status = "pending" ∧
    (load_day_state (some state) today).1.morning.completed_at = none ∧
    (load_day_state (some state) today).1.morning.routine_used = none ∧
    (load_day_state (some state) today).1.workout_queue.queued = false ∧
    (load_day_state (some state) today).1.workout_queue.routine_id = none ∧
    (load_day_state (some state) today).1.workout_queue.routine_name = none ∧
    (load_day_state (some state) today).1.workout_queue.duration_minutes = none ∧
    (load_day_state (some state) today).1.workout_queue.trigger = none ∧
    (load_day_state (some state) today).1.workout_queue.trigger_description = none ∧
    (load_day_state (some state) today).1.workout_queue.queued_at = none ∧
    (load_day_state (some state) today).1.workout_queue.triggered_at = none ∧
    (load_day_state (some state) today).1.deep_work_start = none ∧
    (load_day_state (some state) today).2 =
      some (load_day_state (some state) today).1 := by
  have key : load_day_state (some state) today =
      ({ DEFAULT_DAY_STATE with date := some today },
       some { DEFAULT_DAY_STATE with date := some today }) := by
    show (if state.date ≠ some today then reset_day_if_needed state today
          else (state, some state)) = _
    rw [if_pos h]
    rfl
  rw [key]
  exact ⟨rfl, rfl, rfl, rfl, rfl, rfl, rfl, rfl, rfl, rfl, rfl, rfl, rfl, rfl, rfl⟩

/-- Witness for C1: a fully populated day-D document loaded on day D+1. -/
theorem c1_stale_day_state_resets_witness :
    staleDayState.date ≠ some "2026-10-12" ∧
    load_day_state (some staleDayState) "2026-10-12" =
      ({ DEFAULT_DAY_STATE with date := some "2026-10-12" },
       some { DEFAULT_DAY_STATE with date := some "2026-10-12" }) :=
  ⟨by decide,
   (c1_stale_day_state_resets staleDayState "2026-10-12" (by decide)).1⟩

/-- **C2 (counterexample).** The defaults-merge of `load_config` is not
recursive: storing a configuration whose `quiet_hours` object contains
only `enabled`, the nested key `quiet_hours.start` is absent from the
stored document and present in `DEFAULT_CONFIG`, yet after
`save_config`; `load_config()` it is still absent — the nested default
is not filled in. -/
theorem c2_counterexample :
    getPath c2Saved ["quiet_hours", "start"] = none ∧
    getPath DEFAULT_CONFIG ["quiet_hours", "start"] = some (JValue.str "22:00") ∧
    getPath (load_config (save_config c2Saved)) ["quiet_hours", "start"] = none ∧
    getPath (load_config (save_config c2Saved)) ["quiet_hours", "start"] ≠
      getPath DEFAULT_CONFIG ["quiet_hours", "start"] := by
  refine ⟨rfl, rfl, rfl, ?_⟩
  intro hcontra
  have h1 : (none : Option JValue) = some (JValue.str "22:00") := by
    calc (none : Option JValue)
        = getPath (load_config (save_config c2Saved)) ["quiet_hours", "start"] := rfl
      _ = getPath DEFAULT_CONFIG ["quiet_hours", "start"] := hcontra
      _ = some (JValue.str "22:00") := rfl
  exact Option.noConfusion h1

/-- **C2 (amended).** `save_config(c)` followed by `load_config()` yields
the *top-level* (shallow) merge of the defaults with `c`: every top-level
key absent from `c` is filled from `DEFAULT_CONFIG`, and every top-level
key present in `c` keeps its value from `c` verbatim — including whole
sub-documents, so keys missing *inside* a sub-document present in `c`
(such as `quiet_hours`) are not filled from the defaults. -/
theorem c2_amended_shallow_merge (c : JObj) (k : String) :
    (load_config (save_config c)).lookup k =
      ((c.lookup k).orElse fun _ => DEFAULT_CONFIG.lookup k) :=
  lookup_dictUpdate DEFAULT_CONFIG c k

/-- **C3.** For every single-select menu with `n ≥ 1` items and every
sequence of key events starting from cursor 0, the cursor stays within
`[0, n-1]`; a down event at index `n-1` leaves it at `n-1` and an up
event at index 0 leaves it at 0 (no wraparound). -/
theorem c3_cursor_clamped (n : Int) (hN : 1 ≤ n) :
    (∀ evs : List MenuKey, 0 ≤ runCursor n evs ∧ runCursor n evs ≤ n - 1) ∧
    move_down n (n - 1) = n - 1 ∧
    move_up 0 = 0 := by
  refine ⟨fun evs => cursor_fold_bounds n hN evs 0 le_rfl (by omega), ?_, ?_⟩
  · show min (n - 1) ((n - 1) + 1) = n - 1
    exact min_eq_left (by omega)
  · decide

/-- Witness for C3 on a three-item menu and a concrete key sequence. -/
theorem c3_cursor_clamped_witness :
    (0 ≤ runCursor 3 [MenuKey.down, MenuKey.down, MenuKey.down, MenuKey.up] ∧
     runCursor 3 [MenuKey.down, MenuKey.down, MenuKey.down, MenuKey.up] ≤ 3 - 1) ∧
    move_down 3 (3 - 1) = 3 - 1 ∧
    move_up 0 = 0 :=
  ⟨(c3_cursor_clamped 3 (by decide)).1
      [MenuKey.down, MenuKey.down, MenuKey.down, MenuKey.up],
   (c3_cursor_clamped 3 (by decide)).2.1,
   (c3_cursor_clamped 3 (by decide)).2.2⟩

/-- A navigation key (up/down/space) advances the multi-select loop
without exiting, transforming the state exactly as `multiStateAfter`
says. -/
theorem multiRun_nav_step {α : Type} [BEq α] (items : List α) (c : Int)
    (sel : List α) (e : MenuKey) (he : isNav e = true) (evs : List MenuKey) :
    multiRun items c sel (e :: evs) =
      multiRun items (multiStateAfter items (c, sel) [e]).1
        (multiStateAfter items (c, sel) [e]).2 evs := by
  cases e with
  | up => rfl
  | down => rfl
  | space => rfl
  | enter => exact Bool.noConfusion he
  | escape => exact Bool.noConfusion he
  | qkey => exact Bool.noConfusion he

/-- After any sequence of navigation keys, Enter confirms with the
current selection while Escape and `q` cancel with the sentinel. -/
theorem multiRun_append_exit {α : Type} [BEq α] (items : List α)
    (evs : List MenuKey) :
    ∀ (c : Int) (sel : List α), evs.all isNav = true →
      multiRun items c sel (evs ++ [MenuKey.enter]) =
        some (some (multiStateAfter items (c, sel) evs).2) ∧
      multiRun items c sel (evs ++ [MenuKey.escape]) = some none ∧
      multiRun items c sel (evs ++ [MenuKey.qkey]) = some none := by
  induction evs with
  | nil =>
    intro c sel _
    exact ⟨rfl, rfl, rfl⟩
  | cons e evs ih =>
    intro c sel hall
    rw [List.all_cons, Bool.and_eq_true] at hall
    obtain ⟨he, hall⟩ := hall
    refine ⟨?_, ?_, ?_⟩
    · rw [List.cons_append, multiRun_nav_step items c sel e he (evs ++ [MenuKey.enter])]
      exact (ih _ _ hall).1
    · rw [List.cons_append, multiRun_nav_step items c sel e he (evs ++ [MenuKey.escape])]
      exact (ih _ _ hall).2.1
    · rw [List.cons_append, multiRun_nav_step items c sel e he (evs ++ [MenuKey.qkey])]
      exact (ih _ _ hall).2.2

/-- **C4.** For every multi-select menu, finalizing with Enter returns
the current selection set (the empty set when nothing is selected — a
result distinct from the cancellation sentinel `None`), while Escape or
`q` returns the sentinel regardless of the selection contents. -/
theorem c4_multi_confirm_vs_cancel {α : Type} [BEq α] (items : List α)
    (sel0 : List α) (evs : List MenuKey) (hnav : evs.all isNav = true) :
    multiRun items 0 sel0 (evs ++ [MenuKey.enter]) =
      some (some (multiStateAfter items (0, sel0) evs).2) ∧
    multiRun items 0 sel0 (evs ++ [MenuKey.escape]) = some none ∧
    multiRun items 0 sel0 (evs ++ [MenuKey.qkey]) = some none ∧
    multiRun items 0 ([] : List α) [MenuKey.enter] = some (some ([] : List α)) ∧
    multiRun items 0 ([] : List α) [MenuKey.enter] ≠ some none := by
  obtain ⟨h1, h2, h3⟩ := multiRun_append_exit items evs 0 sel0 hnav
  refine ⟨h1, h2, h3, rfl, ?_⟩
  intro hc
  rw [show multiRun items 0 ([] : List α) [MenuKey.enter] =
      some (some ([] : List α)) from rfl] at hc
  exact Option.noConfusion (Option.some.inj hc)

/-- Witness for C4 on a two-item menu: toggle the second item, then
confirm / cancel. -/
theorem c4_multi_confirm_vs_cancel_witness :
    multiRun ["a", "b"] 0 ([] : List String)
        ([MenuKey.down, MenuKey.space, MenuKey.up] ++ [MenuKey.enter]) =
      some (some (multiStateAfter ["a", "b"] (0, ([] : List String))
        [MenuKey.down, MenuKey.space, MenuKey.up]).2) ∧
    multiRun ["a", "b"] 0 ([] : List String)
        ([MenuKey.down, MenuKey.space, MenuKey.up] ++ [MenuKey.escape]) = some none ∧
    multiRun ["a", "b"] 0 ([] : List String)
        ([MenuKey.down, MenuKey.space, MenuKey.up] ++ [MenuKey.qkey]) = some none ∧
    multiRun ["a", "b"] 0 ([] : List String) [MenuKey.enter] =
      some (some ([] : List String)) ∧
    multiRun ["a", "b"] 0 ([] : List String) [MenuKey.enter] ≠ some none :=
  c4_multi_confirm_vs_cancel ["a", "b"] []
    [MenuKey.down, MenuKey.space, MenuKey.up] (by decide)

/-- **C5.** For every tabbed view with `n ≥ 1` tabs, a previous-tab event
at tab 0 activates tab `n-1` and a next-tab event at tab `n-1` activates
tab 0 (cyclic wraparound), both for the keyboard handlers and for every
previous/next word of the line-based fallback. -/
theorem c5_tab_wraparound (n : Int) (hN : 1 ≤ n) :
    prev_tab n 0 = n - 1 ∧
    next_tab n (n - 1) = 0 ∧
    fallbackTabStep n 0 (some "p") = some (n - 1) ∧
    fallbackTabStep n 0 (some "left") = some (n - 1) ∧
    fallbackTabStep n 0 (some "h") = some (n - 1) ∧
    fallbackTabStep n (n - 1) (some "n") = some 0 ∧
    fallbackTabStep n (n - 1) (some "right") = some 0 ∧
    fallbackTabStep n (n - 1) (some "l") = some 0 := by
  have hprev : prev_tab n 0 = n - 1 := by
    unfold prev_tab
    rw [show (0 - 1 : Int) = (n - 1) + n * (-1) by ring,
      Int.add_mul_emod_self_left, Int.emod_eq_of_lt (by omega) (by omega)]
  have hnext : next_tab n (n - 1) = 0 := by
    unfold next_tab
    rw [show (n - 1 + 1 : Int) = n by ring, Int.emod_self]
  refine ⟨hprev, hnext, ?_, ?_, ?_, ?_, ?_, ?_⟩
  · rw [show fallbackTabStep n 0 (some "p") = some (prev_tab n 0) from rfl, hprev]
  · rw [show fallbackTabStep n 0 (some "left") = some (prev_tab n 0) from rfl, hprev]
  · rw [show fallbackTabStep n 0 (some "h") = some (prev_tab n 0) from rfl, hprev]
  · rw [show fallbackTabStep n (n - 1) (some "n") = some (next_tab n (n - 1)) from rfl,
      hnext]
  · rw [show fallbackTabStep n (n - 1) (some "right") = some (next_tab n (n - 1)) from rfl,
      hnext]
  · rw [show fallbackTabStep n (n - 1) (some "l") = some (next_tab n (n - 1)) from rfl,
      hnext]

/-- Witness for C5 with three tabs. -/
theorem c5_tab_wraparound_witness :
    prev_tab 3 0 = 3 - 1 ∧
    next_tab 3 (3 - 1) = 0 ∧
    fallbackTabStep 3 0 (some "p") = some (3 - 1) ∧
    fallbackTabStep 3 0 (some "left") = some (3 - 1) ∧
    fallbackTabStep 3 0 (some "h") = some (3 - 1) ∧
    fallbackTabStep 3 (3 - 1) (some "n") = some 0 ∧
    fallbackTabStep 3 (3 - 1) (some "right") = some 0 ∧
    fallbackTabStep 3 (3 - 1) (some "l") = some 0 :=
  c5_tab_wraparound 3 (by decide)

/-- **C6.** In the non-interactive fallback mode, for a single-select
menu with at least one item: an empty (whitespace-only) line returns
item 0, a line parsing as an integer `i` with `1 ≤ i ≤ N` returns item
`i-1`, any other line — non-numeric text or an out-of-range number —
returns the cancellation sentinel `None`, and so does end-of-input or an
interrupt. -/
theorem c6_fallback_menu_contract {α : Type} (v : α) (rest : List α) :
    fallback_menu (v :: rest) (none : Option String) = none ∧
    (∀ line : String, pyStrip line = "" →
      fallback_menu (v :: rest) (some line) = some v) ∧
    (∀ (line : String) (i : Int), pyInt? (pyStrip line) = some i →
      1 ≤ i → i ≤ ((v :: rest).length : Int) →
      fallback_menu (v :: rest) (some line) = (v :: rest).get? (i - 1).toNat ∧
      ((v :: rest).get? (i - 1).toNat).isSome = true) ∧
    (∀ line : String, pyStrip line ≠ "" → pyInt? (pyStrip line) = none →
      fallback_menu (v :: rest) (some line) = none) ∧
    (∀ (line : String) (i : Int), pyInt? (pyStrip line) = some i →
      (i < 1 ∨ ((v :: rest).length : Int) < i) →
      fallback_menu (v :: rest) (some line) = none) := by
  have hempty : ∀ line : String, pyStrip line = "" → pyInt? (pyStrip line) = none := by
    intro line h
    rw [h]
    rfl
  refine ⟨rfl, ?_, ?_, ?_, ?_⟩
  · intro line h
    simp [fallback_menu, h]
  · intro line i hparse h1 h2
    have hne : pyStrip line ≠ "" := by
      intro he
      rw [hempty line he] at hparse
      exact Option.noConfusion hparse
    have hlt : (i - 1).toNat < (v :: rest).length := by omega
    simp only [fallback_menu, if_neg hne, hparse]
    rw [if_pos ⟨by omega, by omega⟩]
    refine ⟨rfl, ?_⟩
    rw [List.get?_eq_getElem?, List.getElem?_eq_getElem hlt]
    rfl
  · intro line hne hparse
    simp [fallback_menu, hne, hparse]
  · intro line i hparse hrange
    have hne : pyStrip line ≠ "" := by
      intro he
      rw [hempty line he] at hparse
      exact Option.noConfusion hparse
    simp only [fallback_menu, if_neg hne, hparse]
    rw [if_neg (fun hand => by omega)]

/-- Witness for C6 on the three-item menu `["a","b","c"]`. -/
theorem c6_fallback_menu_contract_witness :
    fallback_menu ["a", "b", "c"] (none : Option String) = none ∧
    fallback_menu ["a", "b", "c"] (some " ") = some "a" ∧
    fallback_menu ["a", "b", "c"] (some "3") =
      ["a", "b", "c"].get? ((3 : Int) - 1).toNat ∧
    fallback_menu ["a", "b", "c"] (some "xyz") = none ∧
    fallback_menu ["a", "b", "c"] (some "7") = none :=
  ⟨(c6_fallback_menu_contract "a" ["b", "c"]).1,
   (c6_fallback_menu_contract "a" ["b", "c"]).2.1 " " (by decide),
   ((c6_fallback_menu_contract "a" ["b", "c"]).2.2.1 "3" 3 (by decide)
     (by decide) (by decide)).1,
   (c6_fallback_menu_contract "a" ["b", "c"]).2.2.2.1 "xyz" (by decide) (by decide),
   (c6_fallback_menu_contract "a" ["b", "c"]).2.2.2.2 "7" 7 (by decide)
     (Or.inr (by decide))⟩

/-- **C7.** For every free-text prompt with default `d`: in keyboard mode
the default is pre-filled, so submitting without typing returns `d`,
Escape and an interrupted/closed input stream return the cancellation
sentinel `None` (never `d`, and both functions are total — no exception
reaches the caller); in fallback mode an empty submission returns `d`
and end-of-input/interrupt returns `None`. -/
theorem c7_input_prompt_contract (d : String) :
    InputPrompt.run d (PromptOutcome.accepted d) = some d ∧
    InputPrompt.run d PromptOutcome.escaped = none ∧
    InputPrompt.run d PromptOutcome.interrupted = none ∧
    InputPrompt.run d PromptOutcome.escaped ≠ some d ∧
    (∀ line : String, pyStrip line = "" →
      InputPrompt.fallback d (some line) = some d) ∧
    InputPrompt.fallback d (none : Option String) = none ∧
    (∀ t : String, InputPrompt.run d (PromptOutcome.accepted t) = some t) := by
  refine ⟨rfl, rfl, rfl, ?_, ?_, rfl, fun t => rfl⟩
  · intro h
    exact Option.noConfusion h
  · intro line h
    simp [InputPrompt.fallback, h]

/-- Witness for C7 with default `"30"`. -/
theorem c7_input_prompt_contract_witness :
    InputPrompt.run "30" (PromptOutcome.accepted "30") = some "30" ∧
    InputPrompt.run "30" PromptOutcome.escaped = none ∧
    InputPrompt.run "30" PromptOutcome.interrupted = none ∧
    InputPrompt.fallback "30" (some " ") = some "30" ∧
    InputPrompt.fallback "30" (none : Option String) = none :=
  ⟨(c7_input_prompt_contract "30").1,
   (c7_input_prompt_contract "30").2.1,
   (c7_input_prompt_contract "30").2.2.1,
   (c7_input_prompt_contract "30").2.2.2.2.1 " " (by decide),
   (c7_input_prompt_contract "30").2.2.2.2.2.1⟩

/-- The printed suggestion line is never empty (it always contains the
space after the count). -/
theorem suggestText_ne_empty (e : Exercise) : suggestText e ≠ "" := by
  unfold suggestText
  by_cases hu : e.unit ≠ "reps"
  · rw [if_pos hu]
    intro h
    have hlen := congrArg String.length h
    simp only [String.length_append] at hlen
    rw [show (" " : String).length = 1 from rfl,
      show ("" : String).length = 0 from rfl] at hlen
    omega
  · rw [if_neg hu]
    intro h
    have hlen := congrArg String.length h
    simp only [String.length_append] at hlen
    rw [show (" " : String).length = 1 from rfl,
      show ("" : String).length = 0 from rfl] at hlen
    omega

/-- **C8.** `suggest`, when enabled with no prior suggestion timestamp and
at least one exercise passing the equipment filter, writes a pending
document (stamped `now`) and the `last_suggested` timestamp and prints a
non-empty line; a call within the cooldown window of the recorded
timestamp produces no output and leaves both files (the pending document
and its `suggested_at` included) unchanged; and when disabled it produces
no output and writes nothing. -/
theorem c8_suggest_contract (enabled : Bool) (cooldown_minutes : Int)
    (exercises : List Exercise) (equipment : List String)
    (task : Option String) (now : Int) (pick : Nat) (files : SuggestFiles) :
    (enabled = true → files.last_suggested = none →
      suggestFilter exercises equipment ≠ [] →
      ((cmd_hook_suggest enabled cooldown_minutes exercises equipment task now
          pick files).2.isSome = true ∧
       (∀ s : String, (cmd_hook_suggest enabled cooldown_minutes exercises
          equipment task now pick files).2 = some s → s ≠ "") ∧
       (cmd_hook_suggest enabled cooldown_minutes exercises equipment task now
          pick files).1.pending.isSome = true ∧
       (∀ p : Pending, (cmd_hook_suggest enabled cooldown_minutes exercises
          equipment task now pick files).1.pending = some p →
          p.suggested_at = now) ∧
       (cmd_hook_suggest enabled cooldown_minutes exercises equipment task now
          pick files).1.last_suggested = some now)) ∧
    (∀ t : Int, files.last_suggested = some t → now - t < cooldown_minutes * 60 →
      cmd_hook_suggest enabled cooldown_minutes exercises equipment task now
        pick files = (files, none)) ∧
    (enabled = false →
      cmd_hook_suggest enabled cooldown_minutes exercises equipment task now
        pick files = (files, none)) := by
  refine ⟨?_, ?_, ?_⟩
  · intro hen hlast hfilter
    have hfe : (suggestFilter exercises equipment).isEmpty = false := by
      cases hfl : suggestFilter exercises equipment with
      | nil => exact absurd hfl hfilter
      | cons a l => rfl
    have hrun : cmd_hook_suggest enabled cooldown_minutes exercises equipment
        task now pick files =
        ({ pending := some
             { ptype := "exercise",
               exercise := suggestText ((suggestFilter exercises equipment).getD
                 (pick % (suggestFilter exercises equipment).length) dummyExercise),
               data := (suggestFilter exercises equipment).getD
                 (pick % (suggestFilter exercises equipment).length) dummyExercise,
               task_description :=
                 match task with
                 | some t => if t = "" then "task" else t
                 | none => "task",
               suggested_at := now },
           last_suggested := some now },
         some (suggestText ((suggestFilter exercises equipment).getD
           (pick % (suggestFilter exercises equipment).length) dummyExercise))) := by
      simp [cmd_hook_suggest, hen, hlast, hfe]
    rw [hrun]
    refine ⟨rfl, ?_, rfl, ?_, rfl⟩
    · intro s hs
      rw [Option.some.inj hs.symm]
      exact suggestText_ne_empty _
    · intro p hp
      rw [← Option.some.inj hp]
  · intro t hlast hcool
    cases enabled with
    | false => rfl
    | true =>
      have hdec : decide (now - t < cooldown_minutes * 60) = true :=
        decide_eq_true hcool
      simp [cmd_hook_suggest, hlast, hdec]
  · intro hen
    rw [hen]
    rfl

/-- Witness for C8: a first `suggest` with no prior timestamp, a second
one 20 minutes later (inside the 30-minute cooldown) with a stored
pending document, and a disabled one. -/
theorem c8_suggest_contract_witness :
    ((cmd_hook_suggest true 30 [pushups] ["none"] (some "writing tests") 1000 0
        ⟨none, none⟩).2.isSome = true ∧
     (cmd_hook_suggest true 30 [pushups] ["none"] (some "writing tests") 1000 0
        ⟨none, none⟩).1.pending.isSome = true ∧
     (cmd_hook_suggest true 30 [pushups] ["none"] (some "writing tests") 1000 0
        ⟨none, none⟩).1.last_suggested = some 1000) ∧
    cmd_hook_suggest true 30 [pushups] ["none"] (some "writing tests") 2200 0
        ⟨some pendingFixture, some 1000⟩ =
      (⟨some pendingFixture, some 1000⟩, none) ∧
    cmd_hook_suggest false 30 [pushups] ["none"] none 1000 0 ⟨none, none⟩ =
      (⟨none, none⟩, none) := by
  have h1 := (c8_suggest_contract true 30 [pushups] ["none"]
    (some "writing tests") 1000 0 ⟨none, none⟩).1 rfl rfl (by decide)
  have h2 := (c8_suggest_contract true 30 [pushups] ["none"]
    (some "writing tests") 2200 0 ⟨some pendingFixture, some 1000⟩).2.1 1000 rfl
    (by decide)
  have h3 := (c8_suggest_contract false 30 [pushups] ["none"] none 1000 0
    ⟨none, none⟩).2.2 rfl
  exact ⟨⟨h1.1, h1.2.2.1, h1.2.2.2.2⟩, h2, h3⟩

theorem load_config_some (s : JObj) :
    load_config (some s) = dictUpdate DEFAULT_CONFIG s := rfl

/-- **C9.** For every stored configuration (whose `quiet_hours`, after
the defaults-merge, is an object `q` — always the case for documents the
program writes), `config-set quiet_hours.enabled true` followed by
`config-get` yields a configuration in which `quiet_hours.enabled` is
`true`, the sibling keys `start` and `end` of `quiet_hours` are
unchanged, and every top-level key other than `quiet_hours` is
unchanged. -/
theorem c9_config_set_quiet_hours (stored : Option JObj) (q : JObj)
    (hq : (load_config stored).lookup "quiet_hours" = some (JValue.obj q)) :
    ∃ q2 : JObj,
      (load_config (cmd_config_set stored "quiet_hours.enabled" "true")).lookup
          "quiet_hours" = some (JValue.obj q2) ∧
      q2.lookup "enabled" = some (JValue.bool true) ∧
      q2.lookup "start" = q.lookup "start" ∧
      q2.lookup "end" = q.lookup "end" ∧
      (∀ k : String, k ≠ "quiet_hours" →
        (load_config (cmd_config_set stored "quiet_hours.enabled" "true")).lookup
            k = (load_config stored).lookup k) := by
  have hstep : setPath (load_config stored) ["quiet_hours", "enabled"]
      (JValue.bool true) =
      some (assocSet (load_config stored) "quiet_hours"
        (JValue.obj (assocSet q "enabled" (JValue.bool true)))) := by
    simp [setPath, hq]
  have hcmd : cmd_config_set stored "quiet_hours.enabled" "true" =
      some (assocSet (load_config stored) "quiet_hours"
        (JValue.obj (assocSet q "enabled" (JValue.bool true)))) := by
    show (match setPath (load_config stored) (splitDots "quiet_hours.enabled")
            (parse_set_value "true") with
          | some config2 => save_config config2
          | none => stored) = _
    rw [show splitDots "quiet_hours.enabled" = ["quiet_hours", "enabled"] from rfl,
      show parse_set_value "true" = JValue.bool true from rfl, hstep]
    rfl
  refine ⟨assocSet q "enabled" (JValue.bool true), ?_, ?_, ?_, ?_, ?_⟩
  · rw [hcmd, load_config_some, lookup_dictUpdate, lookup_assocSet_self]
    rfl
  · exact lookup_assocSet_self q "enabled" (JValue.bool true)
  · exact lookup_assocSet_ne q "enabled" (JValue.bool true) "start" (by decide)
  · exact lookup_assocSet_ne q "enabled" (JValue.bool true) "end" (by decide)
  · intro k hk
    rw [hcmd, load_config_some, lookup_dictUpdate,
      lookup_assocSet_ne (load_config stored) "quiet_hours"
        (JValue.obj (assocSet q "enabled" (JValue.bool true))) k hk]
    exact load_config_lookup_orElse stored k

/-- Witness for C9 starting from an absent config file (whose loaded
`quiet_hours` is the default object). -/
theorem c9_config_set_quiet_hours_witness :
    (load_config none).lookup "quiet_hours" =
      some (JValue.obj [("enabled", JValue.bool false),
        ("start", JValue.str "22:00"), ("end", JValue.str "08:00")]) ∧
    ∃ q2 : JObj,
      (load_config (cmd_config_set none "quiet_hours.enabled" "true")).lookup
          "quiet_hours" = some (JValue.obj q2) ∧
      q2.lookup "enabled" = some (JValue.bool true) ∧
      q2.lookup "start" = ([("enabled", JValue.bool false),
        ("start", JValue.str "22:00"), ("end", JValue.str "08:00")] : JObj).lookup
          "start" ∧
      q2.lookup "end" = ([("enabled", JValue.bool false),
        ("start", JValue.str "22:00"), ("end", JValue.str "08:00")] : JObj).lookup
          "end" ∧
      (∀ k : String, k ≠ "quiet_hours" →
        (load_config (cmd_config_set none "quiet_hours.enabled" "true")).lookup
            k = (load_config none).lookup k) :=
  ⟨rfl,
   c9_config_set_quiet_hours none
     [("enabled", JValue.bool false), ("start", JValue.str "22:00"),
      ("end", JValue.str "08:00")] rfl⟩

